import Mathlib

/-!
Verification development for the CloudMisScan dashboard front-end.

Shallow embedding of the data model, the dashboard proxy API route and the
presentation mappers (trend formatting, severity/risk color mapping,
percentage-label suppression, resource graph projection), together with
theorems settling the specification's testable properties.
-/

namespace CloudMisScan

/-- A JSON value as produced by `response.json()` in the route handler.
Arrays are not needed by any code path modelled here (the route only reads
the `error` field of an object and forwards whole values). -/
inductive JVal where
  | jnull
  | jbool (b : Bool)
  | jnum (n : Int)
  | jstr (s : String)
  | jobj (fields : List (String × JVal))
deriving Repr

/-- JavaScript truthiness of a JSON value (`null`, `false`, `0` and `""` are
falsy; objects are always truthy). -/
def JVal.truthy : JVal → Bool
  | .jnull => false
  | .jbool b => b
  | .jnum n => n ≠ 0
  | .jstr s => s ≠ ""
  | .jobj _ => true

/-- First binding of a key in an object's field list (JS property lookup;
`none` models `undefined`). -/
def jlookup (k : String) : List (String × JVal) → Option JVal
  | [] => none
  | (k', v) :: rest => if k' = k then some v else jlookup k rest

/-- Reading `x.error` on a parsed JSON value `x`: throws (`Except.error`) when
`x` is `null`, yields `undefined` (`none`) when `x` has no such property. -/
def errorProp : JVal → Except Unit (Option JVal)
  | .jnull => .error ()
  | .jobj fs => .ok (jlookup "error" fs)
  | _ => .ok none

/-- `NEXT_PUBLIC_API_URL` default used by the route module. -/
def API_URL : String := "http://localhost:5000"

/-- Outcome of the route's `fetch` of the upstream backend: either a response
with a status code and a body (`none` when the body text is not valid JSON, so
`response.json()` rejects), or a transport-level failure. -/
inductive UpstreamResult where
  | response (status : Nat) (body : Option JVal)
  | failure

/-- A local HTTP response produced by the route: status code and JSON body. -/
structure RouteResponse where
  status : Nat
  body : JVal
deriving Repr

/-- `response.ok`: status in the inclusive range 200..299. -/
def respOk (status : Nat) : Bool := 200 ≤ status && status < 300

/-- Body `{error: "Internal server error"}` returned from the catch block. -/
def internalErrorBody : JVal := .jobj [("error", .jstr "Internal server error")]

/-- The URL the route fetches: `searchParams.get('days') || '30'` interpolated
into the template (both an absent parameter, `none`, and an empty string are
falsy and fall back to `'30'`). -/
def upstreamUrl (daysParam : Option String) : String :=
  let days := match daysParam with
    | none => "30"
    | some s => if s = "" then "30" else s
  API_URL ++ "/api/dashboard?days=" ++ days

/-- How the route turns the upstream fetch outcome into its local response.
Every `throw` inside the `try` block — a rejected `fetch`, a body that fails
`response.json()`, or reading `.error` on a `null` body — lands in the catch
block, which answers `500 {error: "Internal server error"}`. A non-2xx
response with a parsed body is answered with the upstream status and the body
`{error: errorData.error || 'Failed to fetch dashboard data'}`. -/
def dashboardResponse : UpstreamResult → RouteResponse
  | .failure => ⟨500, internalErrorBody⟩
  | .response st body =>
    if respOk st then
      match body with
      | none => ⟨500, internalErrorBody⟩
      | some b => ⟨200, b⟩
    else
      match body with
      | none => ⟨500, internalErrorBody⟩
      | some b =>
        match errorProp b with
        | .error _ => ⟨500, internalErrorBody⟩
        | .ok f =>
          let e := match f with
            | some v => if v.truthy then v else .jstr "Failed to fetch dashboard data"
            | none => .jstr "Failed to fetch dashboard data"
          ⟨st, .jobj [("error", e)]⟩

/-- The `GET` handler of the dashboard proxy route (`app/api/dashboard`).
`daysParam` is `searchParams.get('days')` (`none` = parameter absent);
`upstream` gives the behaviour of `fetch` per URL. Returns the list of
upstream URLs fetched (the handler contains exactly one `fetch`) together
with the local response. -/
def dashboardGET (daysParam : Option String) (upstream : String → UpstreamResult) :
    List String × RouteResponse :=
  let url := upstreamUrl daysParam
  ([url], dashboardResponse (upstream url))

/-- `getSeverityColor` from `ServiceMisconfigurations`. -/
def getSeverityColor (severity : String) : String :=
  if severity = "HIGH" then "rose"
  else if severity = "MEDIUM" then "amber"
  else if severity = "LOW" then "emerald"
  else "slate"

/-- `getRiskLevelColor` from `MisconfigTable`. Note that `'Low'` has no case
of its own and falls through to the default branch. -/
def getRiskLevelColor (level : String) : String :=
  if level = "Critical" then "bg-red-100 text-red-800"
  else if level = "High" then "bg-blue-100 text-blue-800"
  else if level = "Medium" then "bg-gray-100 text-gray-800"
  else "bg-gray-100 text-gray-800"

/-! ## Domain model (`types/aws.ts`) -/

/-- `Misconfiguration` from `types/aws.ts`. `severity` is `'HIGH'|'MEDIUM'|'LOW'`
at the TypeScript level but consumed as an arbitrary string (the color mapper
has a default branch), so it is modelled as `String`. -/
structure Misconfiguration where
  type : String
  severity : String
  description : String
deriving Repr, DecidableEq

/-- `Resource` from `types/aws.ts`. -/
structure Resource where
  id : String
  resource_id : String
  type : String
  name : String
  relationships : List String
  misconfigurations : List Misconfiguration
deriving Repr, DecidableEq

/-- `ServiceData`: a JS object mapping service name to its resources, modelled
as an ordered association list. -/
def ServiceData : Type := List (String × List Resource)

/-- `RiskMetrics` from `types/aws.ts`: per-severity issue counts. -/
structure RiskMetrics where
  high : Nat
  medium : Nat
  low : Nat
deriving Repr, DecidableEq

/-! ## Trend formatting (`TrendChart.tsx`) -/

/-- A raw trend point as the `formattedData` memo sees it: `date` and `value`
are runtime JSON values (the guard checks `!item.date` and
`typeof item.value !== 'number'`, so the code anticipates non-conforming data). -/
structure TrendPoint where
  date : JVal
  value : JVal
deriving Repr

/-- A formatted chart point: human date label and numeric value. -/
structure FormattedPoint where
  date : String
  value : Int
deriving Repr, DecidableEq

/-- Gregorian leap-year rule on the (possibly negative, proleptic) year, as in
the parser's `isLeapYearIndex` — JS `%` differs from Euclidean `%` only in
sign, which divisibility-by-zero tests cannot see. -/
def isLeapYear (y : Int) : Bool := y % 400 == 0 || (y % 4 == 0 && y % 100 != 0)

/-- Number of days of month `m` of year `y` (the parser's `daysInMonths` table
with the leap-year fallback for February). -/
def daysInMonth (y : Int) (m : Nat) : Nat :=
  if m = 2 then (if isLeapYear y then 29 else 28)
  else if m = 4 ∨ m = 6 ∨ m = 9 ∨ m = 11 then 30
  else 31

/-- Days from the proleptic-Gregorian civil date `y-m-d` to 1970-01-01
(Howard Hinnant's `days_from_civil`), the arithmetic behind JS
`Date.setUTCFullYear`. -/
def daysFromCivil (y m d : Int) : Int :=
  let y' := if m ≤ 2 then y - 1 else y
  let era := Int.fdiv y' 400
  let yoe := y' - era * 400
  let mp := if m ≤ 2 then m + 9 else m - 3
  let doy := Int.fdiv (153 * mp + 2) 5 + d - 1
  let doe := yoe * 365 + Int.fdiv yoe 4 - Int.fdiv yoe 100 + doy
  era * 146097 + doe - 719468

/-- Civil date `(y, m, d)` of the day `z` days after 1970-01-01 (Hinnant's
`civil_from_days`), the arithmetic behind JS `Date.getUTCFullYear` etc. -/
def civilFromDays (z : Int) : Int × Int × Int :=
  let z' := z + 719468
  let era := Int.fdiv z' 146097
  let doe := z' - era * 146097
  let yoe := Int.fdiv (doe - Int.fdiv doe 1460 + Int.fdiv doe 36524 - Int.fdiv doe 146096) 365
  let y := yoe + era * 400
  let doy := doe - (365 * yoe + Int.fdiv yoe 4 - Int.fdiv yoe 100)
  let mp := Int.fdiv (5 * doy + 2) 153
  let d := doy - Int.fdiv (153 * mp + 2) 5 + 1
  let m := if mp < 10 then mp + 3 else mp - 9
  (if m ≤ 2 then y + 1 else y, m, d)

/-- JS `Date` time values are clipped to ±8.64e15 milliseconds (`TimeClip`);
beyond that the date is invalid. -/
def clipJsTime (t : Int) : Option Int :=
  if t.natAbs ≤ 8640000000000000 then some t else none

/-- An exact nonnegative decimal `num / 10 ^ exp`: the value of a decimal
fraction in the time part (`parseFloat` of `12.5` etc.), kept exact rather
than as a binary float — sub-millisecond double rounding is below the model's
resolution. -/
structure DecimalNum where
  num : Int
  exp : Nat
deriving Repr

/-- Scale a decimal by an integer (milliseconds-per-unit factors). -/
def DecimalNum.scale (a : DecimalNum) (k : Int) : DecimalNum := ⟨a.num * k, a.exp⟩

/-- Exact sum of two decimals on a common power-of-ten denominator. -/
def DecimalNum.add (a b : DecimalNum) : DecimalNum :=
  let e := max a.exp b.exp
  ⟨a.num * (10 : Int) ^ (e - a.exp) + b.num * (10 : Int) ^ (e - b.exp), e⟩

/-- `a < c` for a decimal against an integer bound. -/
def DecimalNum.ltInt (a : DecimalNum) (c : Int) : Bool := a.num < c * (10 : Int) ^ a.exp

/-- `c ≤ a` for an integer bound against a decimal. -/
def DecimalNum.geInt (a : DecimalNum) (c : Int) : Bool := c * (10 : Int) ^ a.exp ≤ a.num

/-- JS `ToInteger` on the final time value: truncation toward zero. -/
def DecimalNum.trunc (a : DecimalNum) : Int := Int.tdiv a.num ((10 : Int) ^ a.exp)

/-- Numeric value of a digit character. -/
def digitVal (c : Char) : Nat := c.toNat - 48

/-- Value of a list of digit characters read in base 10. -/
def digitsVal (l : List Char) : Nat := l.foldl (fun a c => a * 10 + digitVal c) 0

/-- Split a character list on the date/time delimiters `T` and space (JS
`split(/[T ]/)`), keeping empty chunks. -/
def splitDelim : List Char → List Char → List (List Char)
  | [], acc => [acc.reverse]
  | c :: rest, acc =>
    if c = 'T' ∨ c = ' ' then acc.reverse :: splitDelim rest []
    else splitDelim rest (c :: acc)

/-- The three chunks `splitDateString` produces: date, time and timezone
(empty list = absent/empty, which JS treats as falsy). -/
structure IsoChunks where
  date : List Char
  time : List Char
  timezone : List Char
deriving Repr

/-- The parser's `splitDateString`: at most two `T`/space-separated chunks, a
date chunk containing no `:` (else there is no date and the parse fails), a
`Z`/`z` inside the date chunk ending it early with the remainder becoming the
time string, and the time string split at its first `Z`/`+`/`-` into time and
timezone (the timezone pattern is case-sensitive, so a lowercase `z` never
starts a timezone). -/
def splitIso (s : List Char) : Option IsoChunks :=
  let parts := splitDelim s []
  if 2 < parts.length then none
  else
    let d0 := parts.headD []
    if d0.contains ':' then none
    else
      let isZ : Char → Bool := fun c => c = 'Z' ∨ c = 'z'
      let date := if d0.any isZ then d0.takeWhile (fun c => !isZ c) else d0
      let timeStr := if d0.any isZ then s.drop date.length else (parts.drop 1).headD []
      let pre := timeStr.takeWhile (fun c => !(c = 'Z' ∨ c = '+' ∨ c = '-'))
      some ⟨date, pre, timeStr.drop pre.length⟩

/-- The parser's `parseYear` with the default `additionalDigits = 2`: a plain
4-digit year or a signed 6-digit year, else a 2-digit century (times 100) or a
signed 4-digit century; the remainder goes to the date pattern. -/
def parseYearPart (s : List Char) : Option (Int × List Char) :=
  match s with
  | [] => none
  | c :: rest =>
    if c = '+' ∨ c = '-' then
      let sign : Int := if c = '-' then -1 else 1
      let digs := rest.takeWhile Char.isDigit
      if 6 ≤ digs.length then
        some (sign * digitsVal (rest.take 6), rest.drop 6)
      else if 4 ≤ digs.length then
        some (sign * digitsVal (rest.take 4) * 100, rest.drop 4)
      else none
    else
      let digs := s.takeWhile Char.isDigit
      if 4 ≤ digs.length then some ((digitsVal (s.take 4) : Int), s.drop 4)
      else if 2 ≤ digs.length then some ((digitsVal (s.take 2) : Int) * 100, s.drop 2)
      else none

/-- The four shapes of the rest-of-date pattern
`^-?(?:(\d{3})|(\d{2})(?:-?(\d{2}))?|W(\d{2})(?:-?(\d))?|)$`. -/
inductive DatePart where
  | yearOnly
  | ordinal (doy : Nat)
  | calendar (month : Nat) (day : Option Nat)
  | week (w : Nat) (dow : Option Nat)
deriving Repr

/-- Match the rest of the date string against the date pattern (after an
optional leading `-`): an ordinal day of year (3 digits), a month with
optional day (2 + optional 2 digits), an ISO week with optional weekday
(`W` + 2 digits + optional digit), or nothing. -/
def parseDatePart (s : List Char) : Option DatePart :=
  let s := match s with
    | '-' :: r => r
    | r => r
  match s with
  | [] => some .yearOnly
  | 'W' :: r =>
    match r with
    | [a, b] =>
      if a.isDigit && b.isDigit then some (.week (digitsVal [a, b]) none) else none
    | [a, b, c] =>
      if a.isDigit && b.isDigit && c.isDigit then
        some (.week (digitsVal [a, b]) (some (digitVal c)))
      else none
    | [a, b, '-', c] =>
      if a.isDigit && b.isDigit && c.isDigit then
        some (.week (digitsVal [a, b]) (some (digitVal c)))
      else none
    | _ => none
  | [a, b] =>
    if a.isDigit && b.isDigit then some (.calendar (digitsVal [a, b]) none) else none
  | [a, b, c] =>
    if a.isDigit && b.isDigit && c.isDigit then some (.ordinal (digitsVal [a, b, c]))
    else none
  | [a, b, c, d] =>
    if a.isDigit && b.isDigit && c.isDigit && d.isDigit then
      some (.calendar (digitsVal [a, b]) (some (digitsVal [c, d])))
    else none
  | [a, b, '-', c, d] =>
    if a.isDigit && b.isDigit && c.isDigit && d.isDigit then
      some (.calendar (digitsVal [a, b]) (some (digitsVal [c, d])))
    else none
  | _ => none

/-- ISO day of week (1 = Monday .. 7 = Sunday) of day number `z`
(1970-01-01 was a Thursday). -/
def isoDayOfWeek (z : Int) : Int := (z + 3) % 7 + 1

/-- Timestamp (ms) of the parsed date part: the parser's `parseDate`
validation (`validateDate`, `validateDayOfYearDate`, `validateWeekDate`) and
day arithmetic (`setUTCFullYear` day overflow for ordinal dates,
`dayOfISOWeekYear` for week dates: the Monday of the week containing
January 4, plus week and weekday offsets). -/
def dateTimestamp (y : Int) : DatePart → Option Int
  | .yearOnly => some (daysFromCivil y 1 1 * 86400000)
  | .calendar m d? =>
    let d := d?.getD 1
    if 1 ≤ m ∧ m ≤ 12 ∧ 1 ≤ d ∧ d ≤ daysInMonth y m then
      some (daysFromCivil y (m : Int) (d : Int) * 86400000)
    else none
  | .ordinal doy =>
    if 1 ≤ doy ∧ doy ≤ (if isLeapYear y then 366 else 365) then
      some ((daysFromCivil y 1 1 + ((doy : Int) - 1)) * 86400000)
    else none
  | .week w dow? =>
    let dd := dow?.getD 1
    if 1 ≤ w ∧ w ≤ 53 ∧ 1 ≤ dd ∧ dd ≤ 7 then
      let jan4 := daysFromCivil y 1 4
      let monday1 := jan4 + (1 - isoDayOfWeek jan4)
      some ((monday1 + ((w : Int) - 1) * 7 + ((dd : Int) - 1)) * 86400000)
    else none

/-- One unit of the time pattern, `\d{2}(?:[.,]\d*)?`: two digits with an
optional decimal fraction (possibly with no digits after the point). Returns
the exact decimal value and the remaining characters. -/
def parseTimeUnit : List Char → Option (DecimalNum × List Char)
  | a :: b :: rest =>
    if a.isDigit && b.isDigit then
      match rest with
      | sep :: rest2 =>
        if sep = '.' ∨ sep = ',' then
          let frac := rest2.takeWhile Char.isDigit
          some (⟨digitsVal [a, b] * (10 : Int) ^ frac.length + digitsVal frac, frac.length⟩,
                rest2.drop frac.length)
        else some (⟨digitsVal [a, b], 0⟩, rest)
      | [] => some (⟨digitsVal [a, b], 0⟩, [])
    else none
  | _ => none

/-- An optional `:?`-prefixed further time unit; absent units default to 0
(`parseTimeUnit(...) || 0`). -/
def parseOptTimeUnit (s : List Char) : Option (DecimalNum × List Char) :=
  match s with
  | [] => some (⟨0, 0⟩, [])
  | ':' :: r => parseTimeUnit r
  | c :: _ => if c.isDigit then parseTimeUnit s else some (⟨0, 0⟩, s)

/-- The parser's `validateTime`: hours in [0, 25), minutes and seconds in
[0, 60) — fractional values included, no special case at 24:00. -/
def validTime (h m s : DecimalNum) : Bool :=
  h.geInt 0 && h.ltInt 25 && m.geInt 0 && m.ltInt 60 && s.geInt 0 && s.ltInt 60

/-- The parser's `parseTime`: match
`^(\d{2}(?:[.,]\d*)?)(?::?(\d{2}(?:[.,]\d*)?))?(?::?(\d{2}(?:[.,]\d*)?))?$`,
validate, and convert to (exact decimal) milliseconds. -/
def parseTimePart (s : List Char) : Option DecimalNum :=
  match parseTimeUnit s with
  | none => none
  | some (h, r1) =>
    match parseOptTimeUnit r1 with
    | none => none
    | some (m, r2) =>
      match parseOptTimeUnit r2 with
      | none => none
      | some (sec, r3) =>
        if r3 = [] then
          if validTime h m sec then
            some ((h.scale 3600000).add ((m.scale 60000).add (sec.scale 1000)))
          else none
        else none

/-- The parser's `parseTimezone`: `Z` is offset 0; `^([+-])(\d{2})(?::?(\d{2}))?$`
gives minus-sign-times the offset (a `+02:00` body is 2 hours ahead, so 2
hours are subtracted to reach UTC); minutes above 59 are invalid; any other
timezone string yields offset 0. -/
def parseTimezonePart (tz : List Char) : Option Int :=
  if tz = ['Z'] then some 0
  else
    match tz with
    | sign :: a :: b :: rest =>
      if (sign = '+' ∨ sign = '-') && a.isDigit && b.isDigit then
        let mins? : Option Nat :=
          match rest with
          | [] => some 0
          | [c, d] => if c.isDigit && d.isDigit then some (digitsVal [c, d]) else none
          | [':', c, d] => if c.isDigit && d.isDigit then some (digitsVal [c, d]) else none
          | _ => none
        match mins? with
        | none => some 0
        | some mins =>
          if mins ≤ 59 then
            let off : Int := (digitsVal [a, b] : Int) * 3600000 + (mins : Int) * 60000
            some (if sign = '+' then -off else off)
          else none
      else some 0
    | _ => some 0

/-- date-fns `parseISO` (v2, default options), evaluated in a fixed-UTC
runtime: `some` is the parsed instant in integer milliseconds since the epoch,
`none` is `Invalid Date`. Covers the library's full grammar — calendar dates
(`YYYY`, `YYYY-MM`, `YYYY-MM-DD` and compact forms, signed and century
years), ordinal dates, ISO week dates, an optional time part delimited by
`T` or space (`hh`, `hh:mm`, `hh:mm:ss`, compact forms, decimal fractions)
and an optional timezone (`Z`, `±hh`, `±hh:mm`, `±hhmm`) — with the
library's validation rules and JS `Date` range clipping. -/
def parseISO (s : String) : Option Int :=
  match splitIso s.toList with
  | none => none
  | some chunks =>
    if chunks.date = [] then none
    else
      match parseYearPart chunks.date with
      | none => none
      | some (year, rest) =>
        match parseDatePart rest with
        | none => none
        | some dp =>
          match dateTimestamp year dp with
          | none => none
          | some tsDate =>
            match clipJsTime tsDate with
            | none => none
            | some tsDate =>
              let time? : Option DecimalNum :=
                if chunks.time = [] then some ⟨0, 0⟩
                else parseTimePart chunks.time
              match time? with
              | none => none
              | some time =>
                let off? : Option Int :=
                  if chunks.timezone = [] then some 0
                  else parseTimezonePart chunks.timezone
                match off? with
                | none => none
                | some off =>
                  clipJsTime ((DecimalNum.add ⟨tsDate + off, 0⟩ time).trunc)

/-- Three-letter month abbreviation of the `MMM` pattern. -/
def monthAbbrev (m : Nat) : String :=
  if m = 1 then "Jan" else if m = 2 then "Feb" else if m = 3 then "Mar"
  else if m = 4 then "Apr" else if m = 5 then "May" else if m = 6 then "Jun"
  else if m = 7 then "Jul" else if m = 8 then "Aug" else if m = 9 then "Sep"
  else if m = 10 then "Oct" else if m = 11 then "Nov" else "Dec"

/-- The year as the `yyyy` pattern renders it: zero-padded to four digits,
with years at or below 0 shown as `1 - y` (era handling). -/
def yearString (y : Int) : String :=
  let n := if 0 < y then y.toNat else (1 - y).toNat
  let s := toString n
  if s.length ≥ 4 then s
  else String.mk (List.replicate (4 - s.length) '0') ++ s

/-- date-fns `format(date, 'MMM d, yyyy')` on a valid instant, rendered in the
same fixed-UTC runtime as `parseISO`. -/
def formatDate (ts : Int) : String :=
  let c := civilFromDays (Int.fdiv ts 86400000)
  monthAbbrev c.2.1.toNat ++ " " ++ toString c.2.2 ++ ", " ++ yearString c.1

/-- `typeof v === 'number'`. -/
def isNumberVal : JVal → Bool
  | .jnum _ => true
  | _ => false

/-- The numeric payload of a JSON number. -/
def numVal : JVal → Int
  | .jnum n => n
  | _ => 0

/-- What the `data.map` callback in `TrendChart`'s `formattedData` memo does to
one point. -/
inductive PointOutcome where
  | dropped
  | kept (fp : FormattedPoint)
  | crash
deriving Repr, DecidableEq

/-- One step of the `formattedData` map, parametric in the external date
library (`parse` for `parseISO`, `fmt` for `format(-, 'MMM d, yyyy')` on a
valid date): a point with a falsy `date` or a non-number `value` is warned
about and replaced by `null` (`dropped`); a point passing that guard has
`format(parseISO(item.date), ...)` applied, which throws a `RangeError`
(`crash`) when the parse yields `Invalid Date` (truthy non-string dates also
throw, inside `parseISO` itself). -/
def classifyPointWith (parse : String → Option Int) (fmt : Int → String)
    (p : TrendPoint) : PointOutcome :=
  if !p.date.truthy || !isNumberVal p.value then .dropped
  else
    match p.date with
    | .jstr s =>
      match parse s with
      | some d => .kept ⟨fmt d, numVal p.value⟩
      | none => .crash
    | _ => .crash

/-- The map step instantiated at the concrete library model. -/
def classifyPoint : TrendPoint → PointOutcome := classifyPointWith parseISO formatDate

/-- `data.map(...).filter(Boolean)`, parametric in the date library:
left-to-right evaluation where a throwing callback aborts the whole
expression (`Except.error`), `null` results are filtered out, and the rest
are collected in order. -/
def formatPointsWith (parse : String → Option Int) (fmt : Int → String) :
    List TrendPoint → Except Unit (List FormattedPoint)
  | [] => .ok []
  | p :: ps =>
    match classifyPointWith parse fmt p with
    | .crash => .error ()
    | .dropped => formatPointsWith parse fmt ps
    | .kept fp => (formatPointsWith parse fmt ps).map (fp :: ·)

/-- The mapping pipeline instantiated at the concrete library model. -/
def formatPoints : List TrendPoint → Except Unit (List FormattedPoint) :=
  formatPointsWith parseISO formatDate

/-- The `formattedData` memo of `TrendChart`, including the `data = []` default
parameter for an `undefined` prop (`none`) and the array guard. -/
def formattedData (data : Option (List TrendPoint)) : Except Unit (List FormattedPoint) :=
  formatPoints (data.getD [])

/-! ## Render results of the data-consuming components -/

/-- `getResourceColor` from `ResourceRelationships` (switch on
`type.toLowerCase()`). -/
def getResourceColor (type : String) : String :=
  let t := type.toLower
  if t = "ec2" then "#ff9900"
  else if t = "s3" then "#e31a1c"
  else if t = "rds" then "#33a02c"
  else if t = "iam" then "#1f78b4"
  else "#6a3d9a"

/-- The resource shape `ResourceRelationships` declares locally:
`{id, type, name, relationships}`. -/
structure GraphResource where
  id : String
  type : String
  name : String
  relationships : List String
deriving Repr, DecidableEq

/-- A node of the projected force graph. -/
structure GraphNode where
  id : String
  name : String
  val : Nat
  color : String
deriving Repr, DecidableEq

/-- A directed edge of the projected force graph. -/
structure GraphLink where
  source : String
  target : String
deriving Repr, DecidableEq

/-- The projected force graph. -/
structure GraphData where
  nodes : List GraphNode
  links : List GraphLink
deriving Repr

/-- The `graphData` object built by `ResourceRelationships`: one node per
resource, one link per relationship entry (no existence check on targets). -/
def graphData (resources : List GraphResource) : GraphData :=
  { nodes := resources.map fun r => ⟨r.id, r.name, 1, getResourceColor r.type⟩
    links := resources.flatMap fun r => r.relationships.map fun t => ⟨r.id, t⟩ }

/-- `getSeverityIcon` from `ServiceMisconfigurations` (icon component names). -/
def getSeverityIcon (severity : String) : String :=
  if severity = "HIGH" then "ExclamationTriangleIcon"
  else if severity = "MEDIUM" then "InformationCircleIcon"
  else if severity = "LOW" then "CheckCircleIcon"
  else "InformationCircleIcon"

/-- A misconfiguration enriched with its severity color and icon, as built by
the `resourcesList` memo. -/
structure IssueView where
  issue : Misconfiguration
  severityColor : String
  icon : String
deriving Repr

/-- One resource entry of the `resourcesList` memo. -/
structure ResourceEntryView where
  resource : Resource
  issues : List IssueView
deriving Repr

/-- One service group of the `resourcesList` memo. -/
structure ServiceView where
  service : String
  resources : List ResourceEntryView
deriving Repr

/-- The `resourcesList` memo of `ServiceMisconfigurations`. -/
def resourcesList (services : ServiceData) : List ServiceView :=
  services.map fun sv =>
    { service := sv.1
      resources := sv.2.map fun r =>
        { resource := r
          issues := r.misconfigurations.map fun i =>
            { issue := i
              severityColor := getSeverityColor i.severity
              icon := getSeverityIcon i.severity } } }

/-- What a data-consuming component renders. -/
inductive Render where
  | emptyState (msg : String)
  | trendCard (pts : List FormattedPoint)
  | graphCard (g : GraphData)
  | serviceCard (svcs : List ServiceView)
deriving Repr

/-- The render function of `ServiceMisconfigurations`: the `services = {}`
default parameter absorbs an `undefined` prop, and an empty object renders the
"No misconfigurations found" fallback. -/
def serviceMisconfigurations (services : Option ServiceData) : Except Unit Render :=
  let svcs := services.getD []
  if svcs.isEmpty then .ok (.emptyState "No misconfigurations found")
  else .ok (.serviceCard (resourcesList svcs))

/-- The render function of `TrendChart`: the `formattedData` memo runs first
(its exceptions propagate), then `!data || data.length === 0` selects the
"No trend data available" fallback. -/
def trendChart (data : Option (List TrendPoint)) : Except Unit Render :=
  match formattedData data with
  | .error e => .error e
  | .ok fd =>
    if (data.getD []).isEmpty then .ok (.emptyState "No trend data available")
    else .ok (.trendCard fd)

/-- The render function of `ResourceRelationships`: the `resources` prop has no
default and no guard, so an `undefined` prop makes `resources.map` throw a
`TypeError` before anything renders. -/
def resourceRelationships (resources : Option (List GraphResource)) : Except Unit Render :=
  match resources with
  | none => .error ()
  | some rs => .ok (.graphCard (graphData rs))

/-! ## Pie/donut presentation (`security-overview` and `RiskAssessment`) -/

/-- The slice of `renderCustomizedLabel`'s input that determines its output
text: `percent` (the slice share recharts passes in, a nonnegative rational),
`name` and `value`. The geometric props (`cx`, `midAngle`, radii) only position
the label via floating-point trigonometry and are not part of the suppression
decision. -/
structure PieLabelInput where
  percent : ℚ
  name : String
  value : Int
deriving Repr

/-- `renderCustomizedLabel` from `security-overview`: computes
`percentageValue = (percent * 100).toFixed(0)` — rounding to the nearest
integer, ties up, modelled as `⌊x + 1/2⌋` for the nonnegative shares recharts
supplies — and returns `null` when `Number(percentageValue) < 5`, otherwise the
label text. -/
def renderCustomizedLabel (inp : PieLabelInput) : Option String :=
  let pv : ℤ := ⌊inp.percent * 100 + 1 / 2⌋
  if pv < 5 then none
  else some (toString inp.value ++ " " ++ inp.name ++ " (" ++ toString pv ++ "%)")

/-- A datum of a pie/donut chart. -/
structure SliceDatum where
  name : String
  value : Nat
  color : String
deriving Repr, DecidableEq

/-- The hard-coded `data` array at the top of `security-overview`. -/
def securityOverviewData : List SliceDatum :=
  [⟨"Critical", 3, "#ef4444"⟩, ⟨"High", 8, "#f97316"⟩,
   ⟨"Medium", 15, "#eab308"⟩, ⟨"Low", 24, "#22c55e"⟩]

/-- `SecurityOverview`'s `total = data.reduce((sum, item) => sum + item.value, 0)`. -/
def securityOverviewTotal : Nat :=
  securityOverviewData.foldl (fun sum item => sum + item.value) 0

/-- The header text `{total} issues` rendered by `SecurityOverview` (the card
titled "Risk Overview"). -/
def securityOverviewTotalText : String := toString securityOverviewTotal ++ " issues"

/-- The `data` array `RiskAssessment` builds from its `metrics` prop. -/
def riskAssessmentData (m : RiskMetrics) : List SliceDatum :=
  [⟨"High Risk", m.high, "rose"⟩, ⟨"Medium Risk", m.medium, "amber"⟩,
   ⟨"Low Risk", m.low, "emerald"⟩]

/-- The center label Tremor's v3 `DonutChart` renders by default (`variant`
defaults to `donut`, `showLabel` to `true`, and `RiskAssessment` passes no
`label` prop): the chart's `valueFormatter` — here `(number) =>
number.toString()` — applied to the sum of the category values. -/
def riskAssessmentCenterLabel (m : RiskMetrics) : String :=
  toString (((riskAssessmentData m).map SliceDatum.value).sum)

/-- Every text string `RiskAssessment` renders: the card title, the donut's
default center label (the formatted total), the `valueFormatter` output of
each donut segment, and the legend categories. -/
def riskAssessmentTexts (m : RiskMetrics) : List String :=
  ["Risk Assessment", riskAssessmentCenterLabel m]
    ++ (riskAssessmentData m).map (fun s => toString s.value)
    ++ ["High Risk", "Medium Risk", "Low Risk"]

/-- Hue family of a display color. -/
inductive ColorFamily where
  | red
  | amber
  | green
  | blue
  | gray
  | other
deriving DecidableEq, Repr

/-- Classification of the concrete palette strings returned by the two color
mappers, by the CSS color name they carry (rose/red → red family,
amber → amber/orange family, emerald → green family, blue → blue family,
slate/gray → gray family). Used to state the spec's family-level claims. -/
def colorFamily (c : String) : ColorFamily :=
  if c = "rose" then .red
  else if c = "amber" then .amber
  else if c = "emerald" then .green
  else if c = "slate" then .gray
  else if c = "bg-red-100 text-red-800" then .red
  else if c = "bg-blue-100 text-blue-800" then .blue
  else if c = "bg-gray-100 text-gray-800" then .gray
  else .other

/-! ## Concrete upstream scenarios used to exercise the route -/

/-- An upstream that answers 503 with a JSON error body that has no `error`
field. -/
def upstreamMessageOnly : String → UpstreamResult :=
  fun _ => .response 503 (some (.jobj [("message", .jstr "backend down")]))

/-- An upstream that answers 503 with a JSON body carrying a truthy `error`
field. -/
def upstreamWithErrorField : String → UpstreamResult :=
  fun _ => .response 503 (some (.jobj [("error", .jstr "backend unavailable")]))

/-- An upstream that answers 503 with a body that is not valid JSON. -/
def upstreamBadBody : String → UpstreamResult := fun _ => .response 503 none

/-- An upstream whose `fetch` rejects (transport-level failure). -/
def upstreamDown : String → UpstreamResult := fun _ => .failure

/-! ## Helper lemmas about the trend formatter -/

theorem classifyPointWith_kept_inv (parse : String → Option Int) (fmt : Int → String)
    {p : TrendPoint} {fp : FormattedPoint}
    (h : classifyPointWith parse fmt p = .kept fp) :
    p.date.truthy ∧ isNumberVal p.value ∧
      ∃ s d, p.date = .jstr s ∧ parse s = some d ∧
        fp = ⟨fmt d, numVal p.value⟩ := by
  unfold classifyPointWith at h
  split at h
  · exact absurd h (by simp)
  · rename_i hguard
    simp only [Bool.or_eq_true, not_or, Bool.not_eq_true, Bool.not_eq_false] at hguard
    obtain ⟨hd, hv⟩ := hguard
    refine ⟨by simpa using hd, by simpa using hv, ?_⟩
    split at h
    · rename_i s hs
      split at h
      · rename_i d hd2
        refine ⟨s, d, hs, hd2, ?_⟩
        injection h with h
        exact h.symm
      · exact absurd h (by simp)
    · exact absurd h (by simp)

theorem formatPointsWith_ok_spec (parse : String → Option Int) (fmt : Int → String) :
    ∀ (ds : List TrendPoint) (out : List FormattedPoint),
    formatPointsWith parse fmt ds = .ok out →
    out.length ≤ ds.length ∧
      ∀ fp ∈ out, ∃ p ∈ ds, classifyPointWith parse fmt p = .kept fp := by
  intro ds
  induction ds with
  | nil =>
    intro out h
    unfold formatPointsWith at h
    injection h with h
    subst h
    simp
  | cons p ps ih =>
    intro out h
    unfold formatPointsWith at h
    cases hc : classifyPointWith parse fmt p with
    | crash => rw [hc] at h; exact absurd h (by simp)
    | dropped =>
      rw [hc] at h
      obtain ⟨hlen, hmem⟩ := ih out h
      refine ⟨Nat.le_succ_of_le hlen, fun fp hfp => ?_⟩
      obtain ⟨q, hq, hcq⟩ := hmem fp hfp
      exact ⟨q, List.mem_cons_of_mem _ hq, hcq⟩
    | kept fp0 =>
      rw [hc] at h
      cases hps : formatPointsWith parse fmt ps with
      | error e => rw [hps] at h; exact absurd h (by simp [Except.map])
      | ok rest =>
        rw [hps] at h
        simp only [Except.map] at h
        injection h with h
        subst h
        obtain ⟨hlen, hmem⟩ := ih rest hps
        refine ⟨by simpa using Nat.succ_le_succ hlen, fun fp hfp => ?_⟩
        rcases List.mem_cons.mp hfp with h1 | h1
        · exact ⟨p, List.mem_cons_self _ _, h1 ▸ hc⟩
        · obtain ⟨q, hq, hcq⟩ := hmem fp h1
          exact ⟨q, List.mem_cons_of_mem _ hq, hcq⟩

theorem formatPointsWith_no_crash_ok (parse : String → Option Int) (fmt : Int → String) :
    ∀ (ds : List TrendPoint),
    (∀ p ∈ ds, classifyPointWith parse fmt p ≠ .crash) →
    ∃ out, formatPointsWith parse fmt ds = .ok out := by
  intro ds
  induction ds with
  | nil => exact fun _ => ⟨[], rfl⟩
  | cons p ps ih =>
    intro hnc
    have htail := ih fun q hq => hnc q (List.mem_cons_of_mem _ hq)
    obtain ⟨out, hout⟩ := htail
    cases hc : classifyPointWith parse fmt p with
    | crash => exact absurd hc (hnc p (List.mem_cons_self _ _))
    | dropped => exact ⟨out, by unfold formatPointsWith; rw [hc]; exact hout⟩
    | kept fp0 => exact ⟨fp0 :: out, by unfold formatPointsWith; rw [hc, hout]; rfl⟩

theorem formatPointsWith_crash_error (parse : String → Option Int) (fmt : Int → String) :
    ∀ (ds : List TrendPoint),
    (∃ p ∈ ds, classifyPointWith parse fmt p = .crash) →
    formatPointsWith parse fmt ds = .error () := by
  intro ds
  induction ds with
  | nil => rintro ⟨p, hp, _⟩; exact absurd hp (by simp)
  | cons p ps ih =>
    rintro ⟨q, hq, hcq⟩
    unfold formatPointsWith
    cases hc : classifyPointWith parse fmt p with
    | crash => rfl
    | dropped =>
      rcases List.mem_cons.mp hq with h1 | h1
      · exact absurd (h1 ▸ hcq) (by rw [hc]; simp)
      · exact ih ⟨q, h1, hcq⟩
    | kept fp0 =>
      rcases List.mem_cons.mp hq with h1 | h1
      · exact absurd (h1 ▸ hcq) (by rw [hc]; simp)
      · rw [ih ⟨q, h1, hcq⟩]; rfl

/-! ## Claim theorems -/

/-- C2 counterexample: the trend-formatting computation does throw for a point
whose `date` is a truthy string that is not valid ISO-8601 — the guard only
checks truthiness, so `format(parseISO('not-a-date'), ...)` raises a
`RangeError` and the whole call fails, refuting "the call never throws for any
input point". -/
theorem C2_counterexample :
    formattedData (some [⟨.jstr "not-a-date", .jnum 1⟩]) = .error () := rfl

/-- C2 amended: for any external date library (parser and formatter), and so
in particular for date-fns `parseISO`/`format`: provided no point of the
series makes the date formatter throw (that is, every point passing the
`!item.date || typeof item.value !== 'number'` guard has a date string the
parser accepts as valid ISO-8601), the trend-formatting computation succeeds
with a list no longer than the input in which every retained point stems from
a guard-passing input point whose date parsed as valid ISO-8601 and whose
value is numeric; guard-failing points are excluded (replaced by null and
filtered out); and whenever some point does make the formatter throw, the
whole call fails instead of returning. -/
theorem C2_amended_trend_formatting (parse : String → Option Int) (fmt : Int → String)
    (ds : List TrendPoint)
    (hnc : ∀ p ∈ ds, classifyPointWith parse fmt p ≠ .crash) :
    (∃ out, formatPointsWith parse fmt ds = .ok out ∧ out.length ≤ ds.length ∧
      ∀ fp ∈ out, ∃ p ∈ ds, p.date.truthy ∧ isNumberVal p.value ∧
        ∃ s d, p.date = .jstr s ∧ parse s = some d ∧
          fp = ⟨fmt d, numVal p.value⟩) ∧
    (∀ ds' : List TrendPoint, (∃ p ∈ ds', classifyPointWith parse fmt p = .crash) →
      formatPointsWith parse fmt ds' = .error ()) := by
  constructor
  · obtain ⟨out, hout⟩ := formatPointsWith_no_crash_ok parse fmt ds hnc
    obtain ⟨hlen, hmem⟩ := formatPointsWith_ok_spec parse fmt ds out hout
    refine ⟨out, hout, hlen, fun fp hfp => ?_⟩
    obtain ⟨p, hp, hc⟩ := hmem fp hfp
    obtain ⟨h1, h2, h3⟩ := classifyPointWith_kept_inv parse fmt hc
    exact ⟨p, hp, h1, h2, h3⟩
  · exact fun ds' h => formatPointsWith_crash_error parse fmt ds' h

/-- C2 witness: the amended theorem applied at the concrete library model and
a series with one valid datetime point and one guard-failing point — the
computation (the program's `formattedData`) keeps exactly the valid point. -/
theorem C2_amended_trend_formatting_witness :
    (∀ p ∈ ([⟨.jstr "2024-01-05T10:30:00Z", .jnum 7⟩, ⟨.jnull, .jnum 2⟩] : List TrendPoint),
      classifyPointWith parseISO formatDate p ≠ .crash) ∧
    (∃ out, formatPointsWith parseISO formatDate
        [⟨.jstr "2024-01-05T10:30:00Z", .jnum 7⟩, ⟨.jnull, .jnum 2⟩] = .ok out ∧
      out.length ≤ 2 ∧
      ∀ fp ∈ out,
        ∃ p ∈ ([⟨.jstr "2024-01-05T10:30:00Z", .jnum 7⟩, ⟨.jnull, .jnum 2⟩] : List TrendPoint),
        p.date.truthy ∧ isNumberVal p.value ∧
        ∃ s d, p.date = .jstr s ∧ parseISO s = some d ∧
          fp = ⟨formatDate d, numVal p.value⟩) :=
  ⟨by decide,
   (C2_amended_trend_formatting parseISO formatDate
      [⟨.jstr "2024-01-05T10:30:00Z", .jnum 7⟩, ⟨.jnull, .jnum 2⟩] (by decide)).1⟩

/-- C9: the trend-formatting computation returns the empty sequence, without
throwing, both on an `undefined` input (the `data = []` default parameter) and
on an empty array. -/
theorem C9_empty_input :
    formattedData none = .ok [] ∧ formattedData (some []) = .ok [] := ⟨rfl, rfl⟩

/-- C3 counterexample: `ResourceRelationships` applied to an `undefined`
`resources` prop does not render an empty state — `resources.map` throws a
`TypeError`, refuting "each of the three components, applied to an undefined
or empty input collection, produces a render result rather than raising an
exception". -/
theorem C3_counterexample : resourceRelationships none = .error () := rfl

/-- C3 amended: `ServiceMisconfigurations` and `TrendChart` render an
empty-state fallback on both `undefined` and empty input collections, and
`ResourceRelationships` renders an (empty) graph on an empty collection; but
`ResourceRelationships` has no default or guard for an `undefined` collection
and throws there. -/
theorem C3_amended_component_safety :
    serviceMisconfigurations none = .ok (.emptyState "No misconfigurations found") ∧
    serviceMisconfigurations (some []) = .ok (.emptyState "No misconfigurations found") ∧
    trendChart none = .ok (.emptyState "No trend data available") ∧
    trendChart (some []) = .ok (.emptyState "No trend data available") ∧
    resourceRelationships (some []) = .ok (.graphCard (graphData [])) ∧
    resourceRelationships none = .error () :=
  ⟨rfl, rfl, rfl, rfl, rfl, rfl⟩

/-- C4: for severity strings in HIGH/MEDIUM/LOW and risk-level strings in
Critical/High/Medium/Low the color mappers return one of their declared
palette colors, and every string outside those sets gets the neutral default
(`slate`, resp. the gray badge classes); both functions are total. -/
theorem C4_color_mappers_total (s : String) :
    (s = "HIGH" ∨ s = "MEDIUM" ∨ s = "LOW" →
      getSeverityColor s ∈ ["rose", "amber", "emerald"]) ∧
    (¬(s = "HIGH" ∨ s = "MEDIUM" ∨ s = "LOW") → getSeverityColor s = "slate") ∧
    (s = "Critical" ∨ s = "High" ∨ s = "Medium" ∨ s = "Low" →
      getRiskLevelColor s ∈
        ["bg-red-100 text-red-800", "bg-blue-100 text-blue-800",
         "bg-gray-100 text-gray-800"]) ∧
    (¬(s = "Critical" ∨ s = "High" ∨ s = "Medium" ∨ s = "Low") →
      getRiskLevelColor s = "bg-gray-100 text-gray-800") := by
  refine ⟨?_, ?_, ?_, ?_⟩
  · rintro (rfl | rfl | rfl) <;> simp [getSeverityColor]
  · intro h
    push_neg at h
    obtain ⟨h1, h2, h3⟩ := h
    simp [getSeverityColor, h1, h2, h3]
  · rintro (rfl | rfl | rfl | rfl) <;> simp [getRiskLevelColor]
  · intro h
    push_neg at h
    obtain ⟨h1, h2, h3, _⟩ := h
    simp [getRiskLevelColor, h1, h2, h3]

/-- C4 witness: the theorem applied at the recognized severity "HIGH" and at
the unrecognized risk level "Purple". -/
theorem C4_color_mappers_total_witness :
    getSeverityColor "HIGH" ∈ ["rose", "amber", "emerald"] ∧
    getRiskLevelColor "Purple" = "bg-gray-100 text-gray-800" :=
  ⟨(C4_color_mappers_total "HIGH").1 (Or.inl rfl),
   (C4_color_mappers_total "Purple").2.2.2 (by decide)⟩

/-- C8 counterexample: the risk-level mapper does not assign colors by the
claimed families — `High` maps to the blue family (not amber/orange) and
`Medium` maps to the gray family (not green/blue). -/
theorem C8_counterexample :
    colorFamily (getRiskLevelColor "High") = ColorFamily.blue ∧
    ColorFamily.blue ≠ ColorFamily.amber ∧
    colorFamily (getRiskLevelColor "Medium") = ColorFamily.gray ∧
    ColorFamily.gray ≠ ColorFamily.green ∧ ColorFamily.gray ≠ ColorFamily.blue := by
  refine ⟨by decide, by decide, by decide, by decide, by decide⟩

/-- C8 amended: `getSeverityColor` maps by family as the spec says (HIGH→red,
MEDIUM→amber, LOW→green, unknown→gray), while `getRiskLevelColor` maps
Critical→red family, High→blue family, and every other string — including
`Medium` and `Low` — to the gray family. -/
theorem C8_amended_color_families (s : String) :
    colorFamily (getSeverityColor "HIGH") = ColorFamily.red ∧
    colorFamily (getSeverityColor "MEDIUM") = ColorFamily.amber ∧
    colorFamily (getSeverityColor "LOW") = ColorFamily.green ∧
    (¬(s = "HIGH" ∨ s = "MEDIUM" ∨ s = "LOW") →
      colorFamily (getSeverityColor s) = ColorFamily.gray) ∧
    colorFamily (getRiskLevelColor "Critical") = ColorFamily.red ∧
    colorFamily (getRiskLevelColor "High") = ColorFamily.blue ∧
    (¬(s = "Critical" ∨ s = "High") →
      colorFamily (getRiskLevelColor s) = ColorFamily.gray) := by
  refine ⟨by decide, by decide, by decide, ?_, by decide, by decide, ?_⟩
  · intro h
    push_neg at h
    obtain ⟨h1, h2, h3⟩ := h
    simp [getSeverityColor, colorFamily, h1, h2, h3]
  · intro h
    push_neg at h
    obtain ⟨h1, h2⟩ := h
    by_cases h3 : s = "Medium" <;> simp [getRiskLevelColor, colorFamily, h1, h2, h3]

/-- C8 witness: the amended theorem applied at `"Low"`, whose risk color falls
in the gray family. -/
theorem C8_amended_color_families_witness :
    colorFamily (getRiskLevelColor "Low") = ColorFamily.gray :=
  (C8_amended_color_families "Low").2.2.2.2.2.2 (by decide)

/-- C5: the graph projection yields exactly one node per resource (carrying
its id, name, `val = 1` and type-derived color) and exactly one directed edge
per relationship entry, so `N` resources with `E` relationship entries in
total give `N` nodes and `E` edges; every relationship entry's edge is present
with no membership condition on its target, so dangling edges are kept. -/
theorem C5_graph_projection (rs : List GraphResource) :
    (graphData rs).nodes.length = rs.length ∧
    (graphData rs).links.length = (rs.map (fun r => r.relationships.length)).sum ∧
    (graphData rs).nodes =
      rs.map (fun r => ⟨r.id, r.name, 1, getResourceColor r.type⟩) ∧
    (graphData rs).links =
      rs.flatMap (fun r => r.relationships.map fun t => ⟨r.id, t⟩) ∧
    (∀ r ∈ rs, ∀ t ∈ r.relationships, GraphLink.mk r.id t ∈ (graphData rs).links) := by
  refine ⟨by simp [graphData], ?_, rfl, rfl, ?_⟩
  · simp [graphData, List.length_flatMap, Function.comp_def]
  · intro r hr t ht
    simp only [graphData, List.mem_flatMap]
    exact ⟨r, hr, List.mem_map.mpr ⟨t, ht, rfl⟩⟩

/-- C5 witness: one resource with a relationship to a target id that no node
carries still contributes its edge to the projected graph. -/
theorem C5_graph_projection_witness :
    GraphLink.mk "a" "ghost" ∈
      (graphData [⟨"a", "ec2", "A", ["ghost"]⟩]).links ∧
    "ghost" ∉ (graphData [⟨"a", "ec2", "A", ["ghost"]⟩]).nodes.map GraphNode.id :=
  ⟨(C5_graph_projection [⟨"a", "ec2", "A", ["ghost"]⟩]).2.2.2.2
      ⟨"a", "ec2", "A", ["ghost"]⟩ (by decide) "ghost" (by decide),
   by decide⟩

/-- C6: the pie-slice label function returns the empty (null) render exactly
when the slice's share expressed as a percentage and rounded to the nearest
integer (the `toFixed(0)` rounding, ties upward) is strictly below 5, and a
slice whose rounded share is exactly 5 renders its label. -/
theorem C6_label_suppression (inp : PieLabelInput) :
    (renderCustomizedLabel inp = none ↔ ⌊inp.percent * 100 + 1 / 2⌋ < 5) ∧
    (⌊inp.percent * 100 + 1 / 2⌋ = 5 → ∃ s, renderCustomizedLabel inp = some s) := by
  constructor
  · by_cases h : (⌊inp.percent * 100 + 1 / 2⌋ : ℤ) < 5 <;>
      simp [renderCustomizedLabel, h]
  · intro he
    have h : ¬ (⌊inp.percent * 100 + 1 / 2⌋ : ℤ) < 5 := by omega
    refine ⟨toString inp.value ++ " " ++ inp.name ++ " ("
        ++ toString (⌊inp.percent * 100 + 1 / 2⌋ : ℤ) ++ "%)", ?_⟩
    simp only [renderCustomizedLabel]
    rw [if_neg h]

/-- C6 witness: a share of exactly 5% (1/20) rounds to 5 and renders its
label. -/
theorem C6_label_suppression_witness :
    (⌊((1 : ℚ) / 20) * 100 + 1 / 2⌋ : ℤ) = 5 ∧
    ∃ s, renderCustomizedLabel ⟨1 / 20, "Low", 24⟩ = some s :=
  ⟨by norm_num, (C6_label_suppression ⟨1 / 20, "Low", 24⟩).2 (by norm_num)⟩

/-- C7 counterexample: no component both consumes `riskMetrics` and displays a
total. The card titled "Risk Overview" (`SecurityOverview`) renders its
hard-coded four-slice mock dataset and reads "50 issues" — not "35 issues" —
regardless of `riskMetrics = {high: 3, medium: 8, low: 24}`, and
`RiskAssessment`, which does consume those metrics, renders no total text at
all. -/
theorem C7_counterexample :
    securityOverviewTotalText = "50 issues" ∧
    securityOverviewTotalText ≠ "35 issues" ∧
    securityOverviewData.length = 4 ∧
    "35 issues" ∉ riskAssessmentTexts ⟨3, 8, 24⟩ := by
  refine ⟨rfl, by decide, rfl, by decide⟩

/-- C7 amended: given `riskMetrics = {high: 3, medium: 8, low: 24}`,
`RiskAssessment` renders exactly three chart segments whose values are 3, 8
and 24 (the 3/8/24 proportions), and its donut's default center label shows
the bare total "35" — but no "35 issues" text appears; the "Risk Overview"
card (`SecurityOverview`) is driven by a hard-coded four-slice mock dataset
whose total reads "50 issues" independently of `riskMetrics`. -/
theorem C7_amended_risk_overview (m : RiskMetrics) :
    (riskAssessmentData m).map SliceDatum.value = [m.high, m.medium, m.low] ∧
    (riskAssessmentData m).length = 3 ∧
    riskAssessmentCenterLabel m = toString (m.high + m.medium + m.low) ∧
    riskAssessmentTexts m =
      ["Risk Assessment", riskAssessmentCenterLabel m, toString m.high, toString m.medium,
       toString m.low, "High Risk", "Medium Risk", "Low Risk"] ∧
    riskAssessmentCenterLabel ⟨3, 8, 24⟩ = "35" ∧
    "35 issues" ∉ riskAssessmentTexts ⟨3, 8, 24⟩ ∧
    securityOverviewTotalText = "50 issues" := by
  have hsum : ((riskAssessmentData m).map SliceDatum.value).sum
      = m.high + m.medium + m.low := by
    simp [riskAssessmentData]
    omega
  exact ⟨rfl, rfl, by simp only [riskAssessmentCenterLabel, hsum], rfl,
    by decide, by decide, rfl⟩

/-- C1 counterexample: the upstream error body is not passed through verbatim.
On an upstream 503 whose JSON body is `{message: "backend down"}` the route
answers 503 with the re-wrapped body `{error: "Failed to fetch dashboard
data"}`, which differs from the upstream body; and on an upstream 503 whose
body is not valid JSON the route does not even forward the status — it
answers 500. -/
theorem C1_counterexample :
    dashboardGET (some "90") upstreamMessageOnly =
      (["http://localhost:5000/api/dashboard?days=90"],
       ⟨503, .jobj [("error", .jstr "Failed to fetch dashboard data")]⟩) ∧
    (JVal.jobj [("error", .jstr "Failed to fetch dashboard data")] ≠
      .jobj [("message", .jstr "backend down")]) ∧
    (dashboardGET (some "90") upstreamBadBody).2 = ⟨500, internalErrorBody⟩ ∧
    (500 : Nat) ≠ 503 :=
  ⟨rfl, by simp, rfl, by decide⟩

/-- C1 amended: a `days=90` request produces exactly one upstream call, to
`{API_URL}/api/dashboard?days=90`. On a non-2xx upstream response whose body
parses as a JSON object, the route forwards the upstream status code with the
body `{error: e}`, where `e` is the body's `error` field when present and
truthy and the fallback string `"Failed to fetch dashboard data"` otherwise —
not the upstream body verbatim. On transport-level failure, and likewise when
the upstream body fails JSON parsing, it answers
`500 {error: "Internal server error"}`. -/
theorem C1_amended_dashboard_route (up : String → UpstreamResult) :
    (dashboardGET (some "90") up).1 = [upstreamUrl (some "90")] ∧
    upstreamUrl (some "90") = "http://localhost:5000/api/dashboard?days=90" ∧
    (∀ st fs, up (upstreamUrl (some "90")) = .response st (some (.jobj fs)) →
      respOk st = false →
      (dashboardGET (some "90") up).2 =
        ⟨st, .jobj [("error",
          match jlookup "error" fs with
          | some v => if v.truthy then v else .jstr "Failed to fetch dashboard data"
          | none => .jstr "Failed to fetch dashboard data")]⟩) ∧
    (up (upstreamUrl (some "90")) = .failure →
      (dashboardGET (some "90") up).2 = ⟨500, internalErrorBody⟩) ∧
    (∀ st, up (upstreamUrl (some "90")) = .response st none →
      (dashboardGET (some "90") up).2 = ⟨500, internalErrorBody⟩) := by
  refine ⟨rfl, rfl, ?_, ?_, ?_⟩
  · intro st fs hup hok
    show dashboardResponse (up (upstreamUrl (some "90"))) = _
    rw [hup]
    simp only [dashboardResponse, hok, errorProp, Bool.false_eq_true, if_false]
  · intro hup
    show dashboardResponse (up (upstreamUrl (some "90"))) = _
    rw [hup]
    rfl
  · intro st hup
    show dashboardResponse (up (upstreamUrl (some "90"))) = _
    rw [hup]
    simp only [dashboardResponse]
    split <;> rfl

/-- C1 witness: the amended theorem applied to an upstream that answers 503
with a truthy `error` field (forwarded as the wrapped error) and to an
upstream whose fetch rejects (mapped to the internal 500). -/
theorem C1_amended_dashboard_route_witness :
    upstreamWithErrorField (upstreamUrl (some "90")) =
      .response 503 (some (.jobj [("error", .jstr "backend unavailable")])) ∧
    respOk 503 = false ∧
    (dashboardGET (some "90") upstreamWithErrorField).2 =
      ⟨503, .jobj [("error", .jstr "backend unavailable")]⟩ ∧
    upstreamDown (upstreamUrl (some "90")) = .failure ∧
    (dashboardGET (some "90") upstreamDown).2 = ⟨500, internalErrorBody⟩ :=
  ⟨rfl, rfl,
   (C1_amended_dashboard_route upstreamWithErrorField).2.2.1 503
      [("error", .jstr "backend unavailable")] rfl rfl,
   rfl,
   (C1_amended_dashboard_route upstreamDown).2.2.2.1 rfl⟩

/-- C10: with no `days` query parameter, or an empty one, the route substitutes
the default `'30'` and calls `{API_URL}/api/dashboard?days=30`; for every
request the single upstream URL carries a nonempty `days` value. -/
theorem C10_days_default (up : String → UpstreamResult) :
    (dashboardGET none up).1 = ["http://localhost:5000/api/dashboard?days=30"] ∧
    (dashboardGET (some "") up).1 = ["http://localhost:5000/api/dashboard?days=30"] ∧
    ∀ dp : Option String, ∃ d : String, d ≠ "" ∧
      (dashboardGET dp up).1 = [API_URL ++ "/api/dashboard?days=" ++ d] := by
  refine ⟨rfl, rfl, ?_⟩
  intro dp
  match dp with
  | none => exact ⟨"30", by decide, rfl⟩
  | some s =>
    by_cases h : s = ""
    · subst h
      exact ⟨"30", by decide, rfl⟩
    · refine ⟨s, h, ?_⟩
      show [upstreamUrl (some s)] = _
      simp only [upstreamUrl]
      rw [if_neg h]

end CloudMisScan
